import Mathlib

/-!
Verification of the core of the play-pokemon-team-generator repository: the
chromosome model, the genetic operators, the population utilities, the
type-effectiveness calculator and the fitness engine.  JavaScript numbers are
modelled as exact rationals; the places where the source can produce NaN are
modelled with an explicit JS-number type.  External JSON data (the type chart,
the character/move/ranking catalogues) is passed in as explicit read-only
lookup parameters.
-/

/-- Tournament mode (src/lib/types): the GBL format (teams of 3) or the
Play! Pokemon format (teams of 6). -/
inductive TournamentMode
  | GBL
  | PlayPokemon
deriving DecidableEq, Repr

/-- Chromosome record (src/lib/types): an ordered team of species ids, the
locked anchor indices, and the fitness scalar. -/
structure Chromosome where
  team : List String
  anchors : List Nat
  fitness : ℚ
deriving DecidableEq, Repr

instance : Inhabited Chromosome := ⟨⟨[], [], 0⟩⟩

/-- getBaseSpecies (src/lib/data/pokemon.ts): speciesId.split('_')[0], i.e.
the prefix of the species id before the first underscore (the whole id when
no underscore occurs). -/
def getBaseSpecies (speciesId : String) : String :=
  String.mk (speciesId.data.takeWhile (fun c => c != '_'))

/-- validateTeamUniqueness (src/lib/data/pokemon.ts): the Set of base species
has the same size as the team list. -/
def validateTeamUniqueness (team : List String) : Bool :=
  (team.map getBaseSpecies).dedup.length == (team.map getBaseSpecies).length

/-- The team size demanded by a mode: `mode === 'GBL' ? 3 : 6`. -/
def teamSizeFor : TournamentMode → Nat
  | .GBL => 3
  | .PlayPokemon => 6

/-- isValidChromosome (src/lib/genetic/chromosome.ts): correct team size and
unique base species. -/
def isValidChromosome (chromosome : Chromosome) (mode : TournamentMode) : Bool :=
  (chromosome.team.length == teamSizeFor mode) && validateTeamUniqueness chromosome.team

/-- cloneChromosome (src/lib/genetic/chromosome.ts): copy of all three fields. -/
def cloneChromosome (chromosome : Chromosome) : Chromosome :=
  { team := chromosome.team, anchors := chromosome.anchors, fitness := chromosome.fitness }

/-- isAnchorSlot (src/lib/genetic/chromosome.ts). -/
def isAnchorSlot (index : Nat) (chromosome : Chromosome) : Bool :=
  chromosome.anchors.contains index

/-- getMutableSlots (src/lib/genetic/chromosome.ts): non-anchor slot indices
below the team size. -/
def getMutableSlots (chromosome : Chromosome) (teamSize : Nat) : List Nat :=
  (List.range teamSize).filter (fun i => !isAnchorSlot i chromosome)

theorem cloneChromosome_eq (c : Chromosome) : cloneChromosome c = c := rfl

/-- JS Math.round: floor(x + 0.5). -/
def jsMathRound (q : ℚ) : ℤ := ⌊q + 1/2⌋

/-- Rounding to six decimal places, as in `Math.round(m * 1000000) / 1000000`. -/
def round6 (q : ℚ) : ℚ := (jsMathRound (q * 1000000) : ℚ) / 1000000

namespace Coverage

/-- calculateEffectiveness (src/lib/coverage/typeChart.ts): multiply the
matrix entries for each defense type, skipping missing entries; no rounding.
The JSON matrix is supplied as the explicit lookup `chart`. -/
def calculateEffectiveness (chart : String → String → Option ℚ)
    (attackType : String) (defenseTypes : List String) : ℚ :=
  defenseTypes.foldl (fun multiplier defType =>
    match chart attackType.toLower defType.toLower with
    | some v => multiplier * v
    | none => multiplier) 1.0

end Coverage

namespace CoverageR

/-- calculateEffectiveness (src/unnamed/part_002, second module): same product
of matrix entries, with the result rounded to six decimal places; note the
flipped argument order of this variant. -/
def calculateEffectiveness (chart : String → String → Option ℚ)
    (defenseTypes : List String) (attackType : String) : ℚ :=
  round6 (defenseTypes.foldl (fun multiplier defType =>
    match chart attackType.toLower defType.toLower with
    | some v => multiplier * v
    | none => multiplier) 1.0)

/-- getEffectivenessCategory (src/unnamed/part_002). -/
def getEffectivenessCategory (multiplier : ℚ) : String :=
  if multiplier ≥ 2.0 then "Double Super Effective"
  else if multiplier ≥ 1.6 then "Super Effective"
  else if multiplier > 1.0 then "Effective"
  else if multiplier = 1.0 then "Neutral"
  else if multiplier ≥ 0.625 then "Not Very Effective"
  else if multiplier ≥ 0.39 then "Resisted"
  else "Heavily Resisted"

end CoverageR

/-- The fixed set of multipliers the spec's data model allows in the
type-effectiveness matrix (spec section 3). -/
def chartValueSet : List ℚ := [0.39, 0.625, 1.0, 1.6]

/-- Spec-side description of the effectiveness computation (spec section 4.1):
the product over the defense types of the matrix lookups, a missing entry
counting as the neutral factor 1.0, looked up case-insensitively. -/
def specEffectivenessProduct (chart : String → String → Option ℚ)
    (attackType : String) (defenseTypes : List String) : ℚ :=
  (defenseTypes.map (fun d => (chart attackType.toLower d.toLower).getD 1)).prod

theorem effectiveness_foldl_eq_prod (chart : String → String → Option ℚ)
    (a : String) (l : List String) (m : ℚ) :
    l.foldl (fun multiplier defType =>
      match chart a defType.toLower with
      | some v => multiplier * v
      | none => multiplier) m
      = m * (l.map (fun d => (chart a d.toLower).getD 1)).prod := by
  induction l generalizing m with
  | nil => simp
  | cons d rest ih =>
    simp only [List.foldl_cons, List.map_cons, List.prod_cons]
    cases h : chart a d.toLower with
    | none =>
      simp only [h, Option.getD_none, one_mul]
      exact ih m
    | some v =>
      simp only [h, Option.getD_some]
      rw [ih (m * v)]
      ring

theorem factor_mem_chartValueSet (chart : String → String → Option ℚ)
    (hvals : ∀ a d v, chart a d = some v → v ∈ chartValueSet) (a d : String) :
    (chart a d).getD 1 ∈ chartValueSet := by
  cases h : chart a d with
  | none => norm_num [chartValueSet]
  | some v => simpa using hvals a d v h

theorem round6_mul_chartValues :
    ∀ x ∈ chartValueSet, ∀ y ∈ chartValueSet, round6 (x * y) = x * y := by
  intro x hx y hy
  fin_cases hx <;> fin_cases hy <;> norm_num [round6, jsMathRound]

/-- C6: for every type chart drawn from the fixed multiplier set and every
list of at most two defense types, both calculateEffectiveness variants return
the product of the matrix entries (missing entries neutral, lookup
case-insensitive) rounded to six decimal places. -/
theorem calculateEffectiveness_eq_rounded_product
    (chart : String → String → Option ℚ) (attackType : String)
    (defenseTypes : List String)
    (hlen : defenseTypes.length ≤ 2)
    (hvals : ∀ a d v, chart a d = some v → v ∈ chartValueSet) :
    CoverageR.calculateEffectiveness chart defenseTypes attackType
      = round6 (specEffectivenessProduct chart attackType defenseTypes)
    ∧ Coverage.calculateEffectiveness chart attackType defenseTypes
      = round6 (specEffectivenessProduct chart attackType defenseTypes) := by
  have hprod : ∀ (l : List String),
      l.foldl (fun multiplier defType =>
        match chart attackType.toLower defType.toLower with
        | some v => multiplier * v
        | none => multiplier) (1.0 : ℚ)
        = specEffectivenessProduct chart attackType l := by
    intro l
    unfold specEffectivenessProduct
    rw [effectiveness_foldl_eq_prod]
    norm_num
  have hid : round6 (specEffectivenessProduct chart attackType defenseTypes)
      = specEffectivenessProduct chart attackType defenseTypes := by
    match defenseTypes, hlen with
    | [], _ =>
      norm_num [specEffectivenessProduct, round6, jsMathRound]
    | [d], _ =>
      have h1 := factor_mem_chartValueSet chart hvals attackType.toLower d.toLower
      have h2 := round6_mul_chartValues _ h1 1 (by norm_num [chartValueSet])
      simpa [specEffectivenessProduct] using h2
    | [d1, d2], _ =>
      have h1 := factor_mem_chartValueSet chart hvals attackType.toLower d1.toLower
      have h2 := factor_mem_chartValueSet chart hvals attackType.toLower d2.toLower
      have h3 := round6_mul_chartValues _ h1 _ h2
      simpa [specEffectivenessProduct] using h3
    | d1 :: d2 :: d3 :: rest, hlen3 =>
      exfalso
      simp only [List.length_cons] at hlen3
      omega
  constructor
  · unfold CoverageR.calculateEffectiveness
    rw [hprod defenseTypes]
  · unfold Coverage.calculateEffectiveness
    rw [hprod defenseTypes, hid]

/-- A concrete one-entry sample chart used by the witness below. -/
def sampleChart : String → String → Option ℚ :=
  fun a d => if a = "fire" && d = "grass" then some 1.6 else none

theorem sampleChart_values : ∀ a d v, sampleChart a d = some v → v ∈ chartValueSet := by
  intro a d v h
  unfold sampleChart at h
  split at h
  · injection h with hv
    rw [← hv]
    norm_num [chartValueSet]
  · cases h

theorem calculateEffectiveness_eq_rounded_product_witness :
    (["Grass", "Ice"].length ≤ 2)
    ∧ (∀ a d v, sampleChart a d = some v → v ∈ chartValueSet)
    ∧ (CoverageR.calculateEffectiveness sampleChart ["Grass", "Ice"] "Fire"
        = round6 (specEffectivenessProduct sampleChart "Fire" ["Grass", "Ice"])
      ∧ Coverage.calculateEffectiveness sampleChart "Fire" ["Grass", "Ice"]
        = round6 (specEffectivenessProduct sampleChart "Fire" ["Grass", "Ice"])) :=
  ⟨by decide, sampleChart_values,
   calculateEffectiveness_eq_rounded_product sampleChart "Fire" ["Grass", "Ice"]
     (by decide) sampleChart_values⟩

/-- C7 counterexample: at the multiplier 0.625 (which lies in the claim's
interval 0.39 ≤ m ≤ 0.625) the category is "Not Very Effective", not
"Resisted". -/
theorem getEffectivenessCategory_boundary_counterexample :
    (0.39 : ℚ) ≤ 0.625 ∧ (0.625 : ℚ) ≤ 0.625
    ∧ CoverageR.getEffectivenessCategory 0.625 = "Not Very Effective"
    ∧ CoverageR.getEffectivenessCategory 0.625 ≠ "Resisted" := by
  refine ⟨by norm_num, by norm_num, ?_, ?_⟩
  · norm_num [CoverageR.getEffectivenessCategory]
  · norm_num [CoverageR.getEffectivenessCategory]
    decide

/-- C7 amended: multiplier exactly 1.0 is categorized "Neutral"; at least 1.6
is "Super Effective" or "Double Super Effective"; and 0.39 ≤ m strictly below
0.625 is "Resisted". -/
theorem getEffectivenessCategory_boundaries (m : ℚ) :
    (m = 1.0 → CoverageR.getEffectivenessCategory m = "Neutral")
    ∧ (1.6 ≤ m → CoverageR.getEffectivenessCategory m = "Super Effective"
        ∨ CoverageR.getEffectivenessCategory m = "Double Super Effective")
    ∧ (0.39 ≤ m → m < 0.625 → CoverageR.getEffectivenessCategory m = "Resisted") := by
  refine ⟨fun h1 => ?_, fun h2 => ?_, fun h3 h4 => ?_⟩
  · subst h1
    norm_num [CoverageR.getEffectivenessCategory]
  · unfold CoverageR.getEffectivenessCategory
    split_ifs <;> first | (left; rfl) | (right; rfl) | linarith
  · unfold CoverageR.getEffectivenessCategory
    split_ifs <;> first | rfl | linarith

theorem getEffectivenessCategory_boundaries_witness :
    CoverageR.getEffectivenessCategory 1.0 = "Neutral"
    ∧ (CoverageR.getEffectivenessCategory 1.6 = "Super Effective"
        ∨ CoverageR.getEffectivenessCategory 1.6 = "Double Super Effective")
    ∧ CoverageR.getEffectivenessCategory 0.5 = "Resisted" :=
  ⟨(getEffectivenessCategory_boundaries 1.0).1 rfl,
   (getEffectivenessCategory_boundaries 1.6).2.1 (by norm_num),
   (getEffectivenessCategory_boundaries 0.5).2.2 (by norm_num) (by norm_num)⟩

/-- The slot index JS picks with `someList[Math.floor(Math.random() * someList.length)]`,
with the raw draw pre-floored to a natural number `choice`; the mod keeps the
model total (for real draws the index is already below the length). -/
def pickIndex (choice len : Nat) : Nat := choice % len

/-- One step of the copy loop of crossover (src/lib/genetic/operators.ts,
lines 64-75): at a mutable slot at or after the cut, copy parent 2's entry
unless its base species is already used. The accumulator is the team being
assembled together with the used-base-species set. -/
def crossoverStep (parent2 : Chromosome) (acc : List String × List String)
    (slot : Nat) : List String × List String :=
  let parent2Species := parent2.team.getD slot ""
  let parent2Base := getBaseSpecies parent2Species
  if acc.2.contains parent2Base then acc
  else (acc.1.set slot parent2Species, parent2Base :: acc.2)

/-- The child team crossover assembles before its final defensive uniqueness
check (src/lib/genetic/operators.ts, lines 33-75): clone parent 1, seed the
used set with the anchors' base species and parent 1's base species at mutable
slots before the cut, then copy parent 2's non-duplicate entries at mutable
slots at or after the cut. -/
def crossoverChildTeam (parent1 parent2 : Chromosome) (mode : TournamentMode)
    (cutChoice : Nat) : List String :=
  let teamSize := teamSizeFor mode
  let child := cloneChromosome parent1
  let mutableSlots := getMutableSlots child teamSize
  let crossoverPoint := mutableSlots.getD (pickIndex cutChoice mutableSlots.length) 0
  let usedAnchors := ((List.range teamSize).filter (fun i => isAnchorSlot i child)).map
    (fun i => getBaseSpecies (child.team.getD i ""))
  let usedBefore := usedAnchors ++
    ((mutableSlots.filter (fun slot => decide (slot < crossoverPoint))).map
      (fun slot => getBaseSpecies (child.team.getD slot "")))
  ((mutableSlots.filter (fun slot => decide (crossoverPoint ≤ slot))).foldl
    (crossoverStep parent2) (child.team, usedBefore)).1

/-- crossover (src/lib/genetic/operators.ts): single-point crossover cloning
parent 1, copying parent 2's non-duplicate entries at mutable slots at or
after a random cut, with a final defensive uniqueness check falling back to a
clone of parent 1. -/
def crossover (parent1 parent2 : Chromosome) (mode : TournamentMode)
    (cutChoice : Nat) : Chromosome :=
  if (getMutableSlots (cloneChromosome parent1) (teamSizeFor mode)).isEmpty then
    cloneChromosome parent1
  else if validateTeamUniqueness (crossoverChildTeam parent1 parent2 mode cutChoice) then
    { cloneChromosome parent1 with team := crossoverChildTeam parent1 parent2 mode cutChoice }
  else cloneChromosome parent1

/-- The random mutable slot mutate rewrites (src/lib/genetic/operators.ts,
lines 105-113). -/
def mutateSlot (chromosome : Chromosome) (mode : TournamentMode)
    (slotChoice : Nat) : Nat :=
  let mutableSlots := getMutableSlots (cloneChromosome chromosome) (teamSizeFor mode)
  mutableSlots.getD (pickIndex slotChoice mutableSlots.length) 0

/-- The filtered pool mutate draws from (src/lib/genetic/operators.ts,
lines 115-120): pool species whose base species is not already on the team. -/
def availablePoolFor (chromosome : Chromosome) (pokemonPool : List String) : List String :=
  pokemonPool.filter
    (fun s => !((cloneChromosome chromosome).team.map getBaseSpecies).contains (getBaseSpecies s))

/-- The team mutate assembles before its final defensive uniqueness check
(src/lib/genetic/operators.ts, lines 126-130). -/
def mutateNewTeam (chromosome : Chromosome) (pokemonPool : List String)
    (mode : TournamentMode) (slotChoice poolChoice : Nat) : List String :=
  (cloneChromosome chromosome).team.set (mutateSlot chromosome mode slotChoice)
    ((availablePoolFor chromosome pokemonPool).getD
      (pickIndex poolChoice (availablePoolFor chromosome pokemonPool).length) "")

/-- mutate (src/lib/genetic/operators.ts): with probability mutationRate
(the draw `mutateDraw` models the `Math.random() > mutationRate` coin),
replace one random mutable slot with a random pool species whose base species
is not yet on the team; fail-soft in every other case. -/
def mutate (chromosome : Chromosome) (pokemonPool : List String)
    (mutationRate : ℚ) (mode : TournamentMode) (mutateDraw : ℚ)
    (slotChoice poolChoice : Nat) : Chromosome :=
  if mutationRate < mutateDraw then chromosome
  else if (getMutableSlots (cloneChromosome chromosome) (teamSizeFor mode)).isEmpty then
    cloneChromosome chromosome
  else if (availablePoolFor chromosome pokemonPool).isEmpty then
    cloneChromosome chromosome
  else if validateTeamUniqueness (mutateNewTeam chromosome pokemonPool mode slotChoice poolChoice) then
    { cloneChromosome chromosome with
        team := mutateNewTeam chromosome pokemonPool mode slotChoice poolChoice }
  else chromosome

theorem crossoverStep_foldl_length (parent2 : Chromosome) (slots : List Nat) :
    ∀ (team used : List String),
      ((slots.foldl (crossoverStep parent2) (team, used)).1).length = team.length := by
  induction slots with
  | nil => intro team used; rfl
  | cons s rest ih =>
    intro team used
    simp only [List.foldl_cons, crossoverStep]
    cases h : used.contains (getBaseSpecies (parent2.team.getD s "")) with
    | true => simpa [h] using ih team used
    | false =>
      simp only [h, Bool.false_eq_true, if_false]
      rw [ih]
      exact List.length_set team _ _

theorem crossoverStep_foldl_getElem (parent2 : Chromosome) (slots : List Nat)
    (i : Nat) (hi : i ∉ slots) :
    ∀ (team used : List String),
      ((slots.foldl (crossoverStep parent2) (team, used)).1)[i]? = team[i]? := by
  induction slots with
  | nil => intro team used; rfl
  | cons s rest ih =>
    intro team used
    have hne : i ∉ rest := fun h => hi (List.mem_cons_of_mem s h)
    have hsi : s ≠ i := fun h => hi (h ▸ List.mem_cons_self s rest)
    simp only [List.foldl_cons, crossoverStep]
    cases h : used.contains (getBaseSpecies (parent2.team.getD s "")) with
    | true => simpa [h] using ih hne team used
    | false =>
      simp only [h, Bool.false_eq_true, if_false]
      rw [ih hne]
      exact List.getElem?_set_ne hsi

theorem crossoverChildTeam_length (parent1 parent2 : Chromosome)
    (mode : TournamentMode) (cutChoice : Nat) :
    (crossoverChildTeam parent1 parent2 mode cutChoice).length = parent1.team.length := by
  unfold crossoverChildTeam
  exact crossoverStep_foldl_length parent2 _ _ _

theorem anchor_not_mem_mutableSlots (c : Chromosome) (n i : Nat)
    (hi : i ∈ c.anchors) : i ∉ getMutableSlots c n := by
  intro hmem
  unfold getMutableSlots at hmem
  have h2 := (List.mem_filter.mp hmem).2
  simp only [isAnchorSlot] at h2
  simp [hi] at h2

theorem getD_mod_mem (l : List Nat) (h : l.isEmpty = false) (k : Nat) :
    l.getD (pickIndex k l.length) 0 ∈ l := by
  have hne : l ≠ [] := by
    cases l with
    | nil => simp at h
    | cons a t => simp
  have hlen : 0 < l.length := List.length_pos.mpr hne
  have hlt : pickIndex k l.length < l.length := Nat.mod_lt _ hlen
  rw [List.getD_eq_getElem _ _ hlt]
  exact List.getElem_mem hlt

theorem getDString_mod_mem (l : List String) (h : l.isEmpty = false) (k : Nat) :
    l.getD (pickIndex k l.length) "" ∈ l := by
  have hne : l ≠ [] := by
    cases l with
    | nil => simp at h
    | cons a t => simp
  have hlen : 0 < l.length := List.length_pos.mpr hne
  have hlt : pickIndex k l.length < l.length := Nat.mod_lt _ hlen
  rw [List.getD_eq_getElem _ _ hlt]
  exact List.getElem_mem hlt

/-- C1: crossover on two valid parents returns a chromosome that is valid for
the mode, and mutate on a valid chromosome returns a chromosome that is valid
for the mode, for every pool, mutation rate and random draw. -/
theorem operators_preserve_validity (parent1 parent2 chromosome : Chromosome)
    (mode : TournamentMode) (cutChoice : Nat) (pokemonPool : List String)
    (mutationRate mutateDraw : ℚ) (slotChoice poolChoice : Nat) :
    (isValidChromosome parent1 mode = true → isValidChromosome parent2 mode = true →
      isValidChromosome (crossover parent1 parent2 mode cutChoice) mode = true)
    ∧ (isValidChromosome chromosome mode = true →
      isValidChromosome
        (mutate chromosome pokemonPool mutationRate mode mutateDraw slotChoice poolChoice)
        mode = true) := by
  constructor
  · intro h1 _h2
    unfold crossover
    split
    · simpa [cloneChromosome_eq] using h1
    · split
      case isTrue hval =>
        simp only [isValidChromosome, Bool.and_eq_true, beq_iff_eq] at h1 ⊢
        exact ⟨(crossoverChildTeam_length parent1 parent2 mode cutChoice).trans h1.1, hval⟩
      case isFalse =>
        simpa [cloneChromosome_eq] using h1
  · intro h
    unfold mutate
    split
    · exact h
    · split
      · simpa [cloneChromosome_eq] using h
      · split
        · simpa [cloneChromosome_eq] using h
        · split
          case isTrue hval =>
            simp only [isValidChromosome, Bool.and_eq_true, beq_iff_eq] at h ⊢
            refine ⟨?_, hval⟩
            unfold mutateNewTeam
            rw [List.length_set]
            exact h.1
          case isFalse =>
            exact h

theorem crossoverChildTeam_anchor (parent1 parent2 : Chromosome)
    (mode : TournamentMode) (cutChoice i : Nat) (hi : i ∈ parent1.anchors) :
    (crossoverChildTeam parent1 parent2 mode cutChoice)[i]? = parent1.team[i]? := by
  unfold crossoverChildTeam
  apply crossoverStep_foldl_getElem
  intro hmem
  exact anchor_not_mem_mutableSlots (cloneChromosome parent1) (teamSizeFor mode) i hi
    (List.mem_filter.mp hmem).1

/-- C2: crossover and mutate keep every anchor slot's team entry and the whole
anchors list unchanged, for every input and every random draw. -/
theorem operators_preserve_anchors (parent1 parent2 chromosome : Chromosome)
    (mode : TournamentMode) (cutChoice : Nat) (pokemonPool : List String)
    (mutationRate mutateDraw : ℚ) (slotChoice poolChoice : Nat) (i : Nat) :
    (i ∈ parent1.anchors →
      (crossover parent1 parent2 mode cutChoice).team[i]? = parent1.team[i]?
        ∧ (crossover parent1 parent2 mode cutChoice).anchors = parent1.anchors)
    ∧ (i ∈ chromosome.anchors →
      (mutate chromosome pokemonPool mutationRate mode mutateDraw slotChoice poolChoice).team[i]?
          = chromosome.team[i]?
        ∧ (mutate chromosome pokemonPool mutationRate mode mutateDraw slotChoice poolChoice).anchors
          = chromosome.anchors) := by
  constructor
  · intro hi
    unfold crossover
    split
    · exact ⟨rfl, rfl⟩
    · split
      · exact ⟨crossoverChildTeam_anchor parent1 parent2 mode cutChoice i hi, rfl⟩
      · exact ⟨rfl, rfl⟩
  · intro hi
    unfold mutate
    split
    · exact ⟨rfl, rfl⟩
    · split
      case isTrue => exact ⟨rfl, rfl⟩
      case isFalse hslots =>
        split
        · exact ⟨rfl, rfl⟩
        · split
          case isTrue hval =>
            refine ⟨?_, rfl⟩
            unfold mutateNewTeam
            apply List.getElem?_set_ne
            intro heq
            rw [Bool.not_eq_true] at hslots
            have hmem : mutateSlot chromosome mode slotChoice
                ∈ getMutableSlots (cloneChromosome chromosome) (teamSizeFor mode) := by
              unfold mutateSlot
              exact getD_mod_mem _ hslots _
            exact anchor_not_mem_mutableSlots (cloneChromosome chromosome)
              (teamSizeFor mode) i hi (heq ▸ hmem)
          case isFalse => exact ⟨rfl, rfl⟩

/-- A valid GBL parent with an anchor at slot 0, used in counterexamples and
witnesses below. -/
def cexP1 : Chromosome := ⟨["a", "b", "c"], [0], 0⟩

/-- A valid GBL second parent whose entries collide with cexP1's base species
in a way the crossover used-set misses. -/
def cexP2 : Chromosome := ⟨["z", "a_shadow", "b_shadow"], [], 0⟩

theorem operators_preserve_validity_witness :
    (isValidChromosome cexP1 .GBL = true ∧ isValidChromosome cexP2 .GBL = true)
    ∧ isValidChromosome (crossover cexP1 cexP2 .GBL 0) .GBL = true
    ∧ isValidChromosome (mutate cexP1 ["d"] 1 .GBL 0 0 0) .GBL = true :=
  ⟨⟨by decide, by decide⟩,
   (operators_preserve_validity cexP1 cexP2 cexP1 .GBL 0 ["d"] 1 0 0 0).1
     (by decide) (by decide),
   (operators_preserve_validity cexP1 cexP2 cexP1 .GBL 0 ["d"] 1 0 0 0).2
     (by decide)⟩

theorem operators_preserve_anchors_witness :
    (0 ∈ cexP1.anchors)
    ∧ ((crossover cexP1 cexP2 .GBL 0).team[0]? = cexP1.team[0]?
        ∧ (crossover cexP1 cexP2 .GBL 0).anchors = cexP1.anchors)
    ∧ ((mutate cexP1 ["d"] 1 .GBL 0 0 0).team[0]? = cexP1.team[0]?
        ∧ (mutate cexP1 ["d"] 1 .GBL 0 0 0).anchors = cexP1.anchors) :=
  ⟨by decide,
   (operators_preserve_anchors cexP1 cexP2 cexP1 .GBL 0 ["d"] 1 0 0 0 0).1 (by decide),
   (operators_preserve_anchors cexP1 cexP2 cexP1 .GBL 0 ["d"] 1 0 0 0 0).2 (by decide)⟩

/-- C3 counterexample: two valid GBL parents and a cut choice for which the
assembled child team fails the defensive uniqueness check, so crossover
executes the fallback and returns a clone of parent 1.  (Parent 1's entry at a
slot at or after the cut is kept when parent 2's entry there is a duplicate,
but its base species is never added to the used set, so a later slot can copy
a parent 2 entry with the same base species.) -/
theorem crossover_defensive_check_counterexample :
    isValidChromosome cexP1 .GBL = true
    ∧ isValidChromosome cexP2 .GBL = true
    ∧ validateTeamUniqueness (crossoverChildTeam cexP1 cexP2 .GBL 0) = false
    ∧ crossover cexP1 cexP2 .GBL 0 = cloneChromosome cexP1 := by decide

/-- C3 amended: the defensive uniqueness check can fail even for valid
parents; whenever the assembled child team fails it, crossover returns a clone
of parent 1, and in every case the returned team satisfies uniqueness. -/
theorem crossover_fallback_returns_parent1_clone (parent1 parent2 : Chromosome)
    (mode : TournamentMode) (cutChoice : Nat)
    (h1 : isValidChromosome parent1 mode = true)
    (hdup : validateTeamUniqueness (crossoverChildTeam parent1 parent2 mode cutChoice) = false) :
    crossover parent1 parent2 mode cutChoice = cloneChromosome parent1
    ∧ validateTeamUniqueness (crossover parent1 parent2 mode cutChoice).team = true := by
  unfold isValidChromosome at h1
  have huniq : validateTeamUniqueness parent1.team = true :=
    ((Bool.and_eq_true _ _).mp h1).2
  unfold crossover
  split
  · exact ⟨rfl, huniq⟩
  · split
    case isTrue hval => simp [hdup] at hval
    case isFalse => exact ⟨rfl, huniq⟩

theorem crossover_fallback_returns_parent1_clone_witness :
    isValidChromosome cexP1 .GBL = true
    ∧ validateTeamUniqueness (crossoverChildTeam cexP1 cexP2 .GBL 0) = false
    ∧ (crossover cexP1 cexP2 .GBL 0 = cloneChromosome cexP1
        ∧ validateTeamUniqueness (crossover cexP1 cexP2 .GBL 0).team = true) :=
  ⟨by decide, by decide,
   crossover_fallback_returns_parent1_clone cexP1 cexP2 .GBL 0 (by decide) (by decide)⟩

/-- The ordering of `sort((a, b) => b.fitness - a.fitness)`: descending by
fitness.  JS sort is stable, as is insertion sort. -/
def fitnessGE (a b : Chromosome) : Prop := b.fitness ≤ a.fitness

instance : DecidableRel fitnessGE :=
  fun a b => inferInstanceAs (Decidable (b.fitness ≤ a.fitness))

instance : IsTotal Chromosome fitnessGE := ⟨fun a b => le_total b.fitness a.fitness⟩

instance : IsTrans Chromosome fitnessGE := ⟨fun _ _ _ h1 h2 => le_trans h2 h1⟩

/-- sortByFitness (src/lib/genetic/chromosome.ts): a stable sort of a copy of
the population, descending by fitness. -/
def sortByFitness (population : List Chromosome) : List Chromosome :=
  List.insertionSort fitnessGE population

/-- getBestChromosome (src/lib/genetic/chromosome.ts): sorted[0]. -/
def getBestChromosome (population : List Chromosome) : Chromosome :=
  (sortByFitness population).getD 0 default

/-- getWorstChromosome (src/lib/genetic/chromosome.ts):
sorted[population.length - 1]. -/
def getWorstChromosome (population : List Chromosome) : Chromosome :=
  (sortByFitness population).getD (population.length - 1) default

/-- Lexicographic comparison of char lists by code point, the order JS's
default Array.prototype.sort comparator uses on strings. -/
def charListLE : List Char → List Char → Bool
  | [], _ => true
  | _ :: _, [] => false
  | a :: as, b :: bs =>
    if a.toNat < b.toNat then true
    else if b.toNat < a.toNat then false
    else charListLE as bs

/-- JS string comparison for the default sort comparator. -/
def jsStringLE (a b : String) : Bool := charListLE a.data b.data

/-- Stable insertion of one string into a sorted list (ties keep the existing
element first, as a stable sort does). -/
def jsSortInsert (a : String) : List String → List String
  | [] => [a]
  | b :: t => if jsStringLE a b then a :: b :: t else b :: jsSortInsert a t

/-- The in-place `team.sort()` JS performs inside calculateDiversity: a stable
sort of the strings in code-point order. -/
def jsStringSort : List String → List String
  | [] => []
  | a :: t => jsSortInsert a (jsStringSort t)

/-- calculateDiversity (src/lib/genetic/chromosome.ts): the ratio of distinct
sorted-team signatures to the population size.  Because the source calls
`c.team.sort()`, which sorts the team array IN PLACE, the call also rewrites
every chromosome's team; the second component of the result is the population
as it is left after the call. -/
def calculateDiversity (population : List Chromosome) : ℚ × List Chromosome :=
  (((population.map (fun c => String.intercalate "," (jsStringSort c.team))).dedup.length : ℚ)
      / (population.length : ℚ),
   population.map (fun c => { c with team := jsStringSort c.team }))

/-- The top ⌈30%⌉ slice of the population sorted descending by fitness
(src/lib/genetic/chromosome.ts, lines 350-352); Math.ceil(n * 0.3) is exactly
⌈3n/10⌉ for the population sizes JS numbers represent exactly. -/
def topSlice (population : List Chromosome) : List Chromosome :=
  (sortByFitness population).take ((3 * population.length + 9) / 10)

/-- hasConverged (src/lib/genetic/chromosome.ts): true when the top 30% slice
is empty or its first-to-last fitness spread is below the threshold. -/
def hasConverged (population : List Chromosome) (threshold : ℚ) : Bool :=
  if (topSlice population).isEmpty then true
  else
    decide (((topSlice population).headD default).fitness
      - (((topSlice population).getLast?).getD default).fitness < threshold)

/-- The largest fitness in a slice (spec side, for claim C10). -/
def sliceMax (l : List Chromosome) : ℚ :=
  l.foldl (fun m c => max m c.fitness) ((l.headD default).fitness)

/-- The smallest fitness in a slice (spec side, for claim C10). -/
def sliceMin (l : List Chromosome) : ℚ :=
  l.foldl (fun m c => min m c.fitness) ((l.headD default).fitness)

theorem foldl_max_const (l : List Chromosome) :
    ∀ m : ℚ, (∀ c ∈ l, c.fitness ≤ m) →
      l.foldl (fun acc c => max acc c.fitness) m = m := by
  induction l with
  | nil => intro m _; rfl
  | cons c rest ih =>
    intro m h
    simp only [List.foldl_cons]
    rw [max_eq_left (h c (List.mem_cons_self c rest))]
    exact ih m (fun x hx => h x (List.mem_cons_of_mem c hx))

theorem foldl_min_getLast (l : List Chromosome) :
    ∀ m : ℚ, l.Pairwise fitnessGE → (∀ c ∈ l, c.fitness ≤ m) → l ≠ [] →
      l.foldl (fun acc c => min acc c.fitness) m
        = ((l.getLast?).getD default).fitness := by
  induction l with
  | nil => intro m _ _ hne; exact absurd rfl hne
  | cons c rest ih =>
    intro m hp h _
    simp only [List.foldl_cons]
    rw [min_eq_right (h c (List.mem_cons_self c rest))]
    cases rest with
    | nil => rfl
    | cons r rs =>
      rw [List.getLast?_cons_cons]
      exact ih c.fitness (List.pairwise_cons.mp hp).2
        (fun x hx => (List.pairwise_cons.mp hp).1 x hx) (by simp)

theorem sliceMax_of_sorted (l : List Chromosome) (hp : l.Pairwise fitnessGE)
    (hne : l ≠ []) : sliceMax l = (l.headD default).fitness := by
  cases l with
  | nil => exact absurd rfl hne
  | cons c rest =>
    unfold sliceMax
    simp only [List.headD_cons, List.foldl_cons, max_self]
    exact foldl_max_const rest c.fitness (fun x hx => (List.pairwise_cons.mp hp).1 x hx)

theorem sliceMin_of_sorted (l : List Chromosome) (hp : l.Pairwise fitnessGE)
    (hne : l ≠ []) : sliceMin l = ((l.getLast?).getD default).fitness := by
  cases l with
  | nil => exact absurd rfl hne
  | cons c rest =>
    unfold sliceMin
    simp only [List.headD_cons, List.foldl_cons, min_self]
    cases rest with
    | nil => rfl
    | cons r rs =>
      rw [List.getLast?_cons_cons]
      exact foldl_min_getLast (r :: rs) c.fitness (List.pairwise_cons.mp hp).2
        (fun x hx => (List.pairwise_cons.mp hp).1 x hx) (by simp)

theorem topSlice_pairwise (population : List Chromosome) :
    (topSlice population).Pairwise fitnessGE :=
  List.Pairwise.take (List.sorted_insertionSort fitnessGE population)

/-- C10: hasConverged is true exactly when the top ⌈30%⌉ slice of the
population sorted descending by fitness is empty or spans a fitness range
strictly below the threshold; in particular it is true for a positive
threshold whenever all fitness values in the slice agree, and false whenever
the slice spans a range above the threshold. -/
theorem hasConverged_iff (population : List Chromosome) (threshold : ℚ) :
    (hasConverged population threshold = true ↔
      (topSlice population = []
        ∨ sliceMax (topSlice population) - sliceMin (topSlice population) < threshold))
    ∧ (0 < threshold →
        (∀ a ∈ topSlice population, ∀ b ∈ topSlice population, a.fitness = b.fitness) →
        hasConverged population threshold = true)
    ∧ (topSlice population ≠ [] →
        threshold < sliceMax (topSlice population) - sliceMin (topSlice population) →
        hasConverged population threshold = false) := by
  have hsorted := topSlice_pairwise population
  have hiff : hasConverged population threshold = true ↔
      (topSlice population = []
        ∨ sliceMax (topSlice population) - sliceMin (topSlice population) < threshold) := by
    unfold hasConverged
    split
    case isTrue hempty =>
      have h0 : topSlice population = [] := by simpa [List.isEmpty_iff] using hempty
      simp [h0]
    case isFalse hne =>
      have hne2 : topSlice population ≠ [] := by
        intro h0
        exact hne (by simp [h0])
      rw [sliceMax_of_sorted _ hsorted hne2, sliceMin_of_sorted _ hsorted hne2]
      simp [hne2]
  refine ⟨hiff, ?_, ?_⟩
  · intro hpos hsame
    apply hiff.mpr
    by_cases h0 : topSlice population = []
    · exact Or.inl h0
    · right
      rw [sliceMax_of_sorted _ hsorted h0, sliceMin_of_sorted _ hsorted h0]
      have hhead : (topSlice population).headD default ∈ topSlice population := by
        cases hts : topSlice population with
        | nil => exact absurd hts h0
        | cons a t => simp
      have hlastmem : ((topSlice population).getLast?).getD default ∈ topSlice population := by
        rw [List.getLast?_eq_getLast _ h0]
        simp only [Option.getD_some]
        exact List.getLast_mem h0
      rw [hsame _ hhead _ hlastmem]
      simpa using hpos
  · intro hne hgt
    cases hcv : hasConverged population threshold with
    | false => rfl
    | true =>
      rcases hiff.mp hcv with h0 | hlt
      · exact absurd h0 hne
      · exact absurd hlt (not_lt.mpr (le_of_lt hgt))

/-- A two-chromosome population of identical fitness (top 30% slice has one
element). -/
def convergedPop : List Chromosome := [⟨["a"], [], 5⟩, ⟨["b"], [], 5⟩]

/-- A four-chromosome population whose top 30% slice (two elements) spans a
fitness range of 10. -/
def spreadPop : List Chromosome :=
  [⟨["a"], [], 10⟩, ⟨["b"], [], 0⟩, ⟨["c"], [], 0⟩, ⟨["d"], [], 0⟩]

theorem hasConverged_iff_witness :
    ((0:ℚ) < 1
      ∧ (∀ a ∈ topSlice convergedPop, ∀ b ∈ topSlice convergedPop, a.fitness = b.fitness)
      ∧ hasConverged convergedPop 1 = true)
    ∧ (topSlice spreadPop ≠ []
      ∧ (1:ℚ) < sliceMax (topSlice spreadPop) - sliceMin (topSlice spreadPop)
      ∧ hasConverged spreadPop 1 = false) :=
  ⟨⟨by decide, by decide,
    (hasConverged_iff convergedPop 1).2.1 (by decide) (by decide)⟩,
   ⟨by decide,
    by
      rw [show sliceMax (topSlice spreadPop) = 10 from rfl,
        show sliceMin (topSlice spreadPop) = 0 from rfl]
      norm_num,
    (hasConverged_iff spreadPop 1).2.2 (by decide)
      (by
        rw [show sliceMax (topSlice spreadPop) = 10 from rfl,
          show sliceMin (topSlice spreadPop) = 0 from rfl]
        norm_num)⟩⟩

/-- C5 / code bug: calculateDiversity does NOT leave the population unchanged.
The source's `c.team.sort()` sorts each chromosome's team array in place, so
the population [⟨["b","a","c"], [], 0⟩] comes out of the call with the team
reordered to ["a","b","c"], even though only the fitness field is ever
supposed to be written. -/
theorem calculateDiversity_mutates_teams :
    (calculateDiversity [⟨["b", "a", "c"], [], 0⟩]).2 = [⟨["a", "b", "c"], [], 0⟩]
    ∧ (calculateDiversity [⟨["b", "a", "c"], [], 0⟩]).2 ≠ [⟨["b", "a", "c"], [], 0⟩]
    ∧ (calculateDiversity [⟨["b", "a", "c"], [], 0⟩]).1 = 1 := by
  refine ⟨by decide, by decide, ?_⟩
  show ((1:ℕ):ℚ) / ((1:ℕ):ℚ) = 1
  norm_num

/-- The ambient random source threaded through generation assembly: `float k`
models the k-th `Math.random()` draw used in a rate comparison, `index k` the
k-th draw used (already floored) to index into a list. -/
structure RandomStream where
  float : ℕ → ℚ
  index : ℕ → ℕ

/-- tournamentSelection (src/lib/genetic/operators.ts): pick tournamentSize
random chromosomes (with replacement) and reduce to the one with the highest
fitness (JS reduce: first pick is the initial best). -/
def tournamentSelection (population : List Chromosome) (tournamentSize : Nat)
    (pick : ℕ → ℕ) (k : ℕ) : Chromosome :=
  match (List.range tournamentSize).map
      (fun i => population.getD (pickIndex (pick (k + i)) population.length) default) with
  | [] => default
  | best :: rest =>
    rest.foldl (fun best current =>
      if best.fitness < current.fitness then current else best) best

/-- selectElites (src/lib/genetic/operators.ts): clone the top eliteCount of
the population sorted descending by fitness (the source re-inlines the same
stable descending sort as sortByFitness). -/
def selectElites (population : List Chromosome) (eliteCount : Nat) : List Chromosome :=
  ((sortByFitness population).take eliteCount).map cloneChromosome

/-- One iteration of createNextGeneration's fill loop
(src/lib/genetic/operators.ts, lines 178-193).  The iteration's random draws
sit at fixed offsets of the stream position k (a run that consumes fewer
draws corresponds to a stream whose unused entries are arbitrary). -/
def nextChild (population : List Chromosome) (pokemonPool : List String)
    (mode : TournamentMode) (crossoverRate mutationRate : ℚ)
    (r : RandomStream) (k : ℕ) : Chromosome :=
  let parent1 := tournamentSelection population 3 r.index k
  let parent2 := tournamentSelection population 3 r.index (k + 3)
  let child := if r.float (k + 6) < crossoverRate
    then crossover parent1 parent2 mode (r.index (k + 7))
    else cloneChromosome parent1
  mutate child pokemonPool mutationRate mode (r.float (k + 8)) (r.index (k + 9))
    (r.index (k + 10))

/-- The while loop of createNextGeneration: push children until the next
generation reaches the population size (n children remain to be pushed). -/
def fillChildren (population : List Chromosome) (pokemonPool : List String)
    (mode : TournamentMode) (crossoverRate mutationRate : ℚ)
    (r : RandomStream) : Nat → Nat → List Chromosome
  | 0, _ => []
  | n + 1, k =>
    nextChild population pokemonPool mode crossoverRate mutationRate r k
      :: fillChildren population pokemonPool mode crossoverRate mutationRate r n (k + 11)

/-- createNextGeneration (src/lib/genetic/operators.ts): elites first, then
crossover+mutation children until the input population size is reached. -/
def createNextGeneration (population : List Chromosome) (pokemonPool : List String)
    (mode : TournamentMode) (eliteCount : Nat) (crossoverRate mutationRate : ℚ)
    (r : RandomStream) : List Chromosome :=
  selectElites population eliteCount
    ++ fillChildren population pokemonPool mode crossoverRate mutationRate r
      (population.length - (selectElites population eliteCount).length) 0

theorem fillChildren_length (population : List Chromosome) (pokemonPool : List String)
    (mode : TournamentMode) (crossoverRate mutationRate : ℚ) (r : RandomStream) :
    ∀ n k, (fillChildren population pokemonPool mode crossoverRate mutationRate r n k).length = n := by
  intro n
  induction n with
  | zero => intro k; rfl
  | succ m ih => intro k; simp [fillChildren, ih]

theorem selectElites_eq (population : List Chromosome) (eliteCount : Nat) :
    selectElites population eliteCount = (sortByFitness population).take eliteCount := by
  unfold selectElites
  rw [show cloneChromosome = id from funext cloneChromosome_eq, List.map_id]

theorem sortByFitness_length (population : List Chromosome) :
    (sortByFitness population).length = population.length :=
  (List.perm_insertionSort fitnessGE population).length_eq

/-- C9: createNextGeneration always returns a list of exactly the input
population's length, for every pool, mode, option choice and random stream. -/
theorem createNextGeneration_length (population : List Chromosome)
    (pokemonPool : List String) (mode : TournamentMode) (eliteCount : Nat)
    (crossoverRate mutationRate : ℚ) (r : RandomStream) :
    (createNextGeneration population pokemonPool mode eliteCount crossoverRate
      mutationRate r).length = population.length := by
  unfold createNextGeneration
  rw [List.length_append, fillChildren_length]
  have h1 : (selectElites population eliteCount).length
      = min eliteCount population.length := by
    rw [selectElites_eq, List.length_take, sortByFitness_length]
  omega

/-- C8: when eliteCount is at most the population size, the first eliteCount
entries of the next generation are exactly the first eliteCount entries of the
population sorted descending by fitness (same team, anchors and fitness). -/
theorem createNextGeneration_elites_first (population : List Chromosome)
    (pokemonPool : List String) (mode : TournamentMode) (eliteCount : Nat)
    (crossoverRate mutationRate : ℚ) (r : RandomStream)
    (hpos : 1 ≤ population.length) (he : eliteCount ≤ population.length) :
    (createNextGeneration population pokemonPool mode eliteCount crossoverRate
      mutationRate r).take eliteCount
      = (sortByFitness population).take eliteCount := by
  unfold createNextGeneration
  rw [selectElites_eq]
  have h1 : ((sortByFitness population).take eliteCount).length = eliteCount := by
    rw [List.length_take, sortByFitness_length]
    exact Nat.min_eq_left he
  rw [List.take_append_of_le_length (le_of_eq h1.symm), List.take_take, min_self]

/-- The all-zero random stream used by the witness. -/
def zeroStream : RandomStream := ⟨fun _ => 0, fun _ => 0⟩

theorem createNextGeneration_elites_first_witness :
    1 ≤ spreadPop.length ∧ 2 ≤ spreadPop.length
    ∧ (createNextGeneration spreadPop ["e"] .GBL 2 1 1 zeroStream).take 2
        = (sortByFitness spreadPop).take 2 :=
  ⟨by decide, by decide,
   createNextGeneration_elites_first spreadPop ["e"] .GBL 2 1 1 zeroStream
     (by decide) (by decide)⟩

/-- A JS number: NaN and the infinities arise from 0/0-style operations; all
finite values are exact rationals. -/
inductive JsNum
  | nan
  | posInf
  | negInf
  | num (q : ℚ)
deriving DecidableEq, Repr

/-- JS addition: NaN propagates; opposite infinities give NaN. -/
def jsAdd : JsNum → JsNum → JsNum
  | .nan, _ => .nan
  | _, .nan => .nan
  | .posInf, .negInf => .nan
  | .negInf, .posInf => .nan
  | .posInf, _ => .posInf
  | _, .posInf => .posInf
  | .negInf, _ => .negInf
  | _, .negInf => .negInf
  | .num a, .num b => .num (a + b)

/-- JS multiplication: NaN propagates; infinity times zero is NaN. -/
def jsMul : JsNum → JsNum → JsNum
  | .nan, _ => .nan
  | _, .nan => .nan
  | .num a, .num b => .num (a * b)
  | .posInf, .posInf => .posInf
  | .posInf, .negInf => .negInf
  | .negInf, .posInf => .negInf
  | .negInf, .negInf => .posInf
  | .posInf, .num b => if b = 0 then .nan else if 0 < b then .posInf else .negInf
  | .num a, .posInf => if a = 0 then .nan else if 0 < a then .posInf else .negInf
  | .negInf, .num b => if b = 0 then .nan else if 0 < b then .negInf else .posInf
  | .num a, .negInf => if a = 0 then .nan else if 0 < a then .negInf else .posInf

/-- JS division: 0/0 is NaN, x/0 is a signed infinity, NaN propagates. -/
def jsDiv : JsNum → JsNum → JsNum
  | .nan, _ => .nan
  | _, .nan => .nan
  | .num a, .num b =>
    if b = 0 then
      if a = 0 then .nan else if 0 < a then .posInf else .negInf
    else .num (a / b)
  | .num _, .posInf => .num 0
  | .num _, .negInf => .num 0
  | .posInf, .num b => if 0 ≤ b then .posInf else .negInf
  | .negInf, .num b => if 0 ≤ b then .negInf else .posInf
  | _, _ => .nan

/-- JS Math.min: NaN propagates. -/
def jsMin : JsNum → JsNum → JsNum
  | .nan, _ => .nan
  | _, .nan => .nan
  | .negInf, _ => .negInf
  | _, .negInf => .negInf
  | .posInf, y => y
  | x, .posInf => x
  | .num a, .num b => .num (min a b)

/-- Base stat triple of a character record; the source's field `def` is a
reserved word in Lean, rendered here as `defn`. -/
structure BaseStats where
  atk : ℚ
  defn : ℚ
  hp : ℚ
deriving DecidableEq, Repr

/-- The fields of a character record (src/lib/types) the fitness engine
reads. -/
structure Pokemon where
  speciesId : String
  types : List String
  baseStats : BaseStats
  fastMoves : List String
  chargedMoves : List String
  tags : List String
deriving DecidableEq, Repr

instance : Inhabited Pokemon := ⟨⟨"", [], ⟨0, 0, 0⟩, [], [], []⟩⟩

/-- The fields of a move record (src/lib/types) the fitness engine reads.
`energyGain` is 0 for charged moves (JS reads a falsy value there). -/
structure Move where
  moveId : String
  type : String
  power : ℚ
  energy : ℚ
  energyGain : ℚ
  turns : Option ℚ
  buffs : Option (List ℚ)
deriving DecidableEq, Repr

/-- Modelled from the spec: the ranking record accessors
(`getAllRankingsForPokemon` lives in src/lib/data/rankings, which is not part
of the sources); spec section 6 gives `rankingsFor(name) -> {average,
overall, ...}`. -/
structure Rankings where
  average : ℚ
  overall : ℚ
deriving DecidableEq, Repr

/-- Modelled from the spec: a meta-threat entry (`getMetaThreats` lives in
src/lib/data/rankings, not part of the sources); spec section 6 gives an
ordered list of top characters with their types, read as
threat['Type 1'] / threat['Type 2'] by the fitness engine. -/
structure MetaThreat where
  type1 : String
  type2 : String
deriving DecidableEq, Repr

/-- The read-only knowledge store the fitness engine consumes: character and
move lookups (src/lib/data), the ranking accessors (modelled from the spec,
see Rankings/MetaThreat), and the type chart with its key list. -/
structure Store where
  pokemonBySpeciesId : String → Option Pokemon
  moveByMoveId : String → Option Move
  rankingName : String → String
  rankings : String → Rankings
  metaThreats : List MetaThreat
  chart : String → String → Option ℚ
  chartKeys : List String

/-- Character prefix test used below. -/
def startsWithChars : List Char → List Char → Bool
  | [], _ => true
  | _ :: _, [] => false
  | p :: ps, c :: cs => p == c && startsWithChars ps cs

/-- Substring search on char lists. -/
def hasSubChars : List Char → List Char → Bool
  | [], needle => needle.isEmpty
  | c :: t, needle => startsWithChars needle (c :: t) || hasSubChars t needle

/-- JS String.prototype.includes. -/
def includesStr (s pattern : String) : Bool := hasSubChars s.data pattern.data

/-- getMoveCategory (src/unnamed/part_002, moves module): categorize a
charged move by energy cost; a missing move or falsy energy is unknown. -/
def getMoveCategory (S : Store) (moveId : String) : String :=
  match S.moveByMoveId moveId with
  | none => "unknown"
  | some move =>
    if move.energy = 0 then "unknown"
    else if move.energy ≤ 40 then "spam"
    else if move.energy ≤ 50 then "general"
    else "nuke"

/-- hasBuffEffects (src/unnamed/part_002, moves module). -/
def hasBuffEffects (S : Store) (moveId : String) : Bool :=
  match S.moveByMoveId moveId with
  | some move => move.buffs.isSome && decide (0 < (move.buffs.getD []).length)
  | none => false

/-- The result record of evaluateMoveSynergy. -/
structure MoveSynergy where
  hasSpamNuke : Bool
  hasBuff : Bool
  synergyScore : ℚ
deriving DecidableEq, Repr

/-- evaluateMoveSynergy (src/unnamed/part_002, moves module): 2 points for a
spam+nuke pair, 1 for a buff move, 0.5 for different categories. -/
def evaluateMoveSynergy (S : Store) (chargedMove1 chargedMove2 : String) : MoveSynergy :=
  match S.moveByMoveId chargedMove1, S.moveByMoveId chargedMove2 with
  | some _, some _ =>
    let cat1 := getMoveCategory S chargedMove1
    let cat2 := getMoveCategory S chargedMove2
    let hasSpamNuke := (cat1 == "spam" && cat2 == "nuke") || (cat1 == "nuke" && cat2 == "spam")
    let hasBuff := hasBuffEffects S chargedMove1 || hasBuffEffects S chargedMove2
    ⟨hasSpamNuke, hasBuff,
      (if hasSpamNuke then (2:ℚ) else 0) + (if hasBuff then 1 else 0)
        + (if cat1 != cat2 then 0.5 else 0)⟩
  | _, _ => ⟨false, false, 0⟩

/-- calculateTurnsToCharge (src/unnamed/part_002, moves module). -/
def calculateTurnsToCharge (S : Store) (fastMoveId chargedMoveId : String) : ℚ :=
  match S.moveByMoveId fastMoveId, S.moveByMoveId chargedMoveId with
  | some fastMove, some chargedMove =>
    if fastMove.energyGain = 0 ∨ chargedMove.energy = 0 then 0
    else (⌈chargedMove.energy / fastMove.energyGain⌉ : ℚ)
  | _, _ => 0

/-- calculateTimeToCharge (src/unnamed/part_002, moves module): each turn is
half a second; falsy turn counts give 0. -/
def calculateTimeToCharge (S : Store) (fastMoveId chargedMoveId : String) : ℚ :=
  let turns := calculateTurnsToCharge S fastMoveId chargedMoveId
  match S.moveByMoveId fastMoveId with
  | some fastMove =>
    match fastMove.turns with
    | some t => if t = 0 then 0 else turns * t * 0.5
    | none => 0
  | none => 0

/-- calculatePressureScore (src/unnamed/part_002, moves module): inverse of
the time to charge, 0 when that time is 0. -/
def calculatePressureScore (S : Store) (fastMoveId chargedMoveId : String) : ℚ :=
  if calculateTimeToCharge S fastMoveId chargedMoveId = 0 then 0
  else 1 / calculateTimeToCharge S fastMoveId chargedMoveId

/-- The result record of calculateOffensiveCoverage. -/
structure OffensiveCoverage where
  superEffective : List String
  neutral : List String
  notVeryEffective : List String
  coverageScore : ℚ
deriving Repr

/-- The result record of calculateDefensiveCoverage. -/
structure DefensiveCoverage where
  resistedTypes : List String
  weakTypes : List String
  coverageScore : ℚ
deriving Repr

namespace Coverage

/-- The best multiplier any move type in the set achieves against one
defending type (the inner loop of calculateOffensiveCoverage). -/
def bestMultiplier (chart : String → String → Option ℚ)
    (moveTypes : List String) (defType : String) : ℚ :=
  moveTypes.foldl (fun best atkType =>
    max best (calculateEffectiveness chart atkType [defType])) 0

/-- calculateOffensiveCoverage (src/lib/coverage/typeChart.ts): classify
every defending type by the best multiplier over the move-type set; score is
one point per super-effective type plus half a point per neutral type. -/
def calculateOffensiveCoverage (chart : String → String → Option ℚ)
    (allTypes : List String) (moveTypes : List String) : OffensiveCoverage :=
  let superEffective := (allTypes.filter
    (fun d => decide (1.6 ≤ bestMultiplier chart moveTypes d))).dedup
  let neutral := (allTypes.filter (fun d =>
    !decide (1.6 ≤ bestMultiplier chart moveTypes d)
      && decide (bestMultiplier chart moveTypes d = 1.0))).dedup
  let notVeryEffective := (allTypes.filter (fun d =>
    !decide (1.6 ≤ bestMultiplier chart moveTypes d)
      && !decide (bestMultiplier chart moveTypes d = 1.0))).dedup
  ⟨superEffective, neutral, notVeryEffective,
    (superEffective.length : ℚ) + (neutral.length : ℚ) * 0.5⟩

/-- calculateDefensiveCoverage (src/lib/coverage/typeChart.ts): a type is
resisted by the team when at least two members resist it, a team weakness
when at least three members are weak to it. -/
def calculateDefensiveCoverage (chart : String → String → Option ℚ)
    (allTypes : List String) (teamTypes : List (List String)) : DefensiveCoverage :=
  let resistCount := fun atkType => (teamTypes.filter (fun defTypes =>
    decide (calculateEffectiveness chart atkType (defTypes.filter (fun t => t != "none"))
      ≤ 0.625))).length
  let weakCount := fun atkType => (teamTypes.filter (fun defTypes =>
    !decide (calculateEffectiveness chart atkType (defTypes.filter (fun t => t != "none"))
        ≤ 0.625)
      && decide (1.6 ≤ calculateEffectiveness chart atkType
        (defTypes.filter (fun t => t != "none"))))).length
  let resistedTypes := (allTypes.dedup).filter (fun t => decide (2 ≤ resistCount t))
  let weakTypes := (allTypes.dedup).filter (fun t => decide (3 ≤ weakCount t))
  ⟨resistedTypes, weakTypes,
    (resistedTypes.length : ℚ) - (weakTypes.length : ℚ) * 0.5⟩

end Coverage

/-- The `team.map(getPokemonBySpeciesId).filter(Boolean)` prologue shared by
the fitness components. -/
def teamPokemonOf (S : Store) (team : List String) : List Pokemon :=
  (team.map S.pokemonBySpeciesId).reduceOption

/-- calculateTypeCoverageScore (src/lib/genetic/fitness.ts): 60% offensive
coverage over the team's charged-move types plus 40% defensive coverage over
the team's own types, each normalized. -/
def calculateTypeCoverageScore (S : Store) (team : List String) : ℚ :=
  let teamPokemon := teamPokemonOf S team
  if teamPokemon.length = 0 then 0
  else
    let allMoveTypes := ((teamPokemon.map (fun p =>
      (p.chargedMoves.map (fun moveId => (S.moveByMoveId moveId).map (·.type))).reduceOption)).flatten).dedup
    let offensiveCoverage := Coverage.calculateOffensiveCoverage S.chart S.chartKeys allMoveTypes
    let offensiveScore := offensiveCoverage.coverageScore / 18
    let teamTypes := teamPokemon.map (·.types)
    let defensiveCoverage := Coverage.calculateDefensiveCoverage S.chart S.chartKeys teamTypes
    let defensiveScore := max 0 (defensiveCoverage.coverageScore / 10)
    offensiveScore * 0.6 + defensiveScore * 0.4

/-- calculateRankingScore (src/lib/genetic/fitness.ts): mean of the positive
aggregate ranking scores, normalized by 100; 0 when no member has one. -/
def calculateRankingScore (S : Store) (team : List String) : ℚ :=
  let totals := team.foldl (fun (acc : ℚ × ℕ) speciesId =>
    let rankings := S.rankings (S.rankingName speciesId)
    if 0 < rankings.average then (acc.1 + rankings.average, acc.2 + 1) else acc) (0, 0)
  if totals.2 = 0 then 0 else totals.1 / (totals.2 : ℚ) / 100

/-- evaluateThreeLineup (src/lib/genetic/fitness.ts): ABA/ABB/ABC pattern
bonuses for a lead/switch/closer lineup, capped at 1. -/
def evaluateThreeLineup (S : Store) (lineup : List String) : ℚ :=
  match lineup with
  | [a, b, c] =>
    match S.pokemonBySpeciesId a, S.pokemonBySpeciesId b, S.pokemonBySpeciesId c with
    | some lead, some switchP, some closer =>
      let s1 := if 0 < (lead.types.dedup.filter (fun t => closer.types.contains t)).length
        then (0.3:ℚ) else 0
      let s2 := if closer.types.dedup.any (fun t => switchP.types.contains t)
        then (0.3:ℚ) else 0
      let s3 := if 5 ≤ (lead.types ++ switchP.types ++ closer.types).dedup.length
        then (0.4:ℚ) else 0
      min (s1 + s2 + s3) 1.0
    | _, _, _ => 0
  | _ => 0

/-- evaluateBestLineup (src/lib/genetic/fitness.ts): the best
evaluateThreeLineup score over every ordered triple of distinct slots of a
6-member team. -/
def evaluateBestLineup (S : Store) (team : List String) : ℚ :=
  if team.length = 6 then
    (List.range 6).foldl (fun best i =>
      (List.range 6).foldl (fun best j =>
        (List.range 6).foldl (fun best k =>
          if i ≠ j ∧ j ≠ k ∧ i ≠ k then
            max best (evaluateThreeLineup S [team.getD i "", team.getD j "", team.getD k ""])
          else best) best) best) 0
  else 0

/-- calculateStrategyScore (src/lib/genetic/fitness.ts). -/
def calculateStrategyScore (S : Store) (team : List String) (mode : TournamentMode) : ℚ :=
  match mode with
  | .GBL => evaluateThreeLineup S team
  | .PlayPokemon => evaluateBestLineup S team

/-- calculateMetaThreatScore (src/lib/genetic/fitness.ts).  The source's
inner `break` leaves only the move loop, so each threat is counted once per
team member that has a super-effective charged move against it. -/
def calculateMetaThreatScore (S : Store) (team : List String) : ℚ :=
  let metaThreats := S.metaThreats
  let teamPokemon := teamPokemonOf S team
  if teamPokemon.length = 0 then 0
  else
    let coveredThreats := ((metaThreats.take 50).map (fun threat =>
      let threatTypes := [threat.type1, threat.type2].filter (fun t => t != "none")
      (teamPokemon.filter (fun pokemon =>
        pokemon.chargedMoves.any (fun moveId =>
          match S.moveByMoveId moveId with
          | some move =>
            decide (1.6 ≤ Coverage.calculateEffectiveness S.chart move.type threatTypes)
          | none => false))).length)).sum
    (coveredThreats : ℚ) / 50

/-- calculateEnergyScore (src/lib/genetic/fitness.ts): mean normalized move
synergy plus mean capped charge pressure, half weight each. -/
def calculateEnergyScore (S : Store) (team : List String) : ℚ :=
  let teamPokemon := teamPokemonOf S team
  if teamPokemon.length = 0 then 0
  else
    let totals := teamPokemon.foldl (fun (acc : ℚ × ℚ) pokemon =>
      let chargedMoves := pokemon.chargedMoves.take 2
      let totalSynergy := if chargedMoves.length = 2 then
          acc.1 + (evaluateMoveSynergy S (chargedMoves.getD 0 "") (chargedMoves.getD 1 "")).synergyScore / 3.5
        else acc.1
      let totalPressure := if 0 < pokemon.fastMoves.length ∧ 0 < chargedMoves.length then
          acc.2 + min (calculatePressureScore S (pokemon.fastMoves.getD 0 "") (chargedMoves.getD 0 "") * 2) 1
        else acc.2
      (totalSynergy, totalPressure)) (0, 0)
    totals.1 / (teamPokemon.length : ℚ) * 0.5 + totals.2 / (teamPokemon.length : ℚ) * 0.5

/-- calculateSurpriseFactor (src/lib/genetic/fitness.ts): off-meta bonus per
member, averaged over team.length and capped at 1.  On an empty team the
average is the JS expression 0/0. -/
def calculateSurpriseFactor (S : Store) (team : List String) : JsNum :=
  let surpriseScore := team.foldl (fun acc speciesId =>
    let rankings := S.rankings (S.rankingName speciesId)
    let acc := if 60 ≤ rankings.overall ∧ rankings.overall < 80 then acc + (0.3:ℚ) else acc
    if 0 < rankings.overall ∧ rankings.overall < 60 then acc + 0.5 else acc) 0
  jsMin (jsDiv (JsNum.num surpriseScore) (JsNum.num (team.length : ℚ))) (JsNum.num 1.0)

/-- calculateConsistency (src/lib/genetic/fitness.ts): high-average bonus per
member, averaged over team.length.  On an empty team this is the JS
expression 0/0. -/
def calculateConsistency (S : Store) (team : List String) : JsNum :=
  let consistencyScore := team.foldl (fun acc speciesId =>
    let rankings := S.rankings (S.rankingName speciesId)
    if 85 ≤ rankings.average then acc + (1.0:ℚ)
    else if 75 ≤ rankings.average then acc + 0.5 else acc) 0
  jsDiv (JsNum.num consistencyScore) (JsNum.num (team.length : ℚ))

/-- calculateAnchorSynergy (src/lib/genetic/fitness.ts): per anchor, 60% of
the fraction of its weaknesses some non-anchor resists plus 40% of the
(per-non-anchor counted) super-effective answers, averaged over anchors.
The source's inner `break` leaves only the move loop, so the offensive count
is per (weakness, non-anchor) pair. -/
def calculateAnchorSynergy (S : Store) (team : List String)
    (anchorIndices : List Nat) : ℚ :=
  if anchorIndices.length = 0 then 0
  else
    let anchors := (anchorIndices.map (fun i => S.pokemonBySpeciesId (team.getD i ""))).reduceOption
    let nonAnchors := (team.enum.map (fun p =>
      if anchorIndices.contains p.1 then none else S.pokemonBySpeciesId p.2)).reduceOption
    if anchors.length = 0 ∨ nonAnchors.length = 0 then 0
    else
      let synergyScore := anchors.foldl (fun acc anchor =>
        let weaknesses := (S.chartKeys.filter (fun t =>
          decide (1.6 ≤ Coverage.calculateEffectiveness S.chart t anchor.types))).dedup
        let defensiveCoverage := (weaknesses.filter (fun weakness =>
          nonAnchors.any (fun nonAnchor =>
            decide (Coverage.calculateEffectiveness S.chart weakness nonAnchor.types ≤ 0.625)))).length
        let defensiveScore := if 0 < weaknesses.length
          then (defensiveCoverage : ℚ) / (weaknesses.length : ℚ) else 0
        let offensiveCoverage := (weaknesses.map (fun weakness =>
          (nonAnchors.filter (fun nonAnchor =>
            nonAnchor.chargedMoves.any (fun moveId =>
              match S.moveByMoveId moveId with
              | some move =>
                decide (1.6 ≤ Coverage.calculateEffectiveness S.chart move.type [weakness])
              | none => false))).length)).sum
        let totalChecks := weaknesses.length
        let offensiveScore := if 0 < totalChecks
          then (offensiveCoverage : ℚ) / (totalChecks : ℚ) else 0
        acc + (defensiveScore * 0.6 + offensiveScore * 0.4)) 0
      synergyScore / (anchors.length : ℚ)

/-- calculateTypeDiversity (src/lib/genetic/fitness.ts): start at 1, subtract
0.3 per type shared by three or more members and 0.1 per type shared by
exactly two, floored at 0. -/
def calculateTypeDiversity (S : Store) (team : List String) : ℚ :=
  let teamPokemon := teamPokemonOf S team
  if teamPokemon.length = 0 then 0
  else
    let allTypes := (teamPokemon.map (·.types)).flatten
    let diversityScore := allTypes.dedup.foldl (fun score t =>
      let count := allTypes.count t
      if 3 ≤ count then score - 0.3
      else if count = 2 then score - 0.1
      else score) (1.0:ℚ)
    max 0 diversityScore

/-- calculateStatBalance (src/lib/genetic/fitness.ts): classify members by
bulk ratio (def + hp) / atk and score the bulky/balanced/attack mix. -/
def calculateStatBalance (S : Store) (team : List String) : ℚ :=
  let teamPokemon := teamPokemonOf S team
  if teamPokemon.length = 0 then 0
  else
    let bulkRatioOf := fun (p : Pokemon) => (p.baseStats.defn + p.baseStats.hp) / p.baseStats.atk
    let bulkyCount := (teamPokemon.filter (fun p => decide (2.5 ≤ bulkRatioOf p))).length
    let balancedCount := (teamPokemon.filter (fun p =>
      !decide (2.5 ≤ bulkRatioOf p) && decide (1.8 ≤ bulkRatioOf p))).length
    let attackCount := (teamPokemon.filter (fun p => decide (bulkRatioOf p < 1.8))).length
    let totalCount := teamPokemon.length
    let score1 := if (totalCount : ℚ) * 0.5 < (attackCount : ℚ) then (1.0:ℚ) - 0.3
      else if (totalCount : ℚ) * 0.4 < (attackCount : ℚ) then 1.0 - 0.15 else 1.0
    let score2 := if bulkyCount = 0 ∧ balancedCount ≤ 1 then score1 - 0.3 else score1
    let score3 := if 1 ≤ bulkyCount then score2 + 0.1 else score2
    let score4 := if 2 ≤ balancedCount then score3 + 0.1 else score3
    max 0 score4

/-- calculateShadowPreference (src/lib/genetic/fitness.ts): shadow bonus on
glass cannons, small penalties for untaken shadow variants and shadow tanks,
averaged over the team. -/
def calculateShadowPreference (S : Store) (team : List String) : ℚ :=
  let teamPokemon := teamPokemonOf S team
  if teamPokemon.length = 0 then 0
  else
    let score := teamPokemon.foldl (fun acc pokemon =>
      let bulkRatioP := (pokemon.baseStats.defn + pokemon.baseStats.hp) / pokemon.baseStats.atk
      let isShadow := includesStr pokemon.speciesId "_shadow"
      let acc1 := if bulkRatioP < 1.8 then
          if isShadow then acc + (0.15:ℚ)
          else
            let shadowId := if includesStr pokemon.speciesId "_shadow"
              then pokemon.speciesId else pokemon.speciesId ++ "_shadow"
            match S.pokemonBySpeciesId shadowId with
            | some shadowVariant =>
              if shadowVariant.tags.contains "shadow" then acc - 0.05 else acc
            | none => acc
        else acc
      if 2.5 ≤ bulkRatioP ∧ isShadow = true then acc1 - 0.05 else acc1) 0
    score / (teamPokemon.length : ℚ)

/-- The 18-type list hardcoded in calculateTypeSynergy
(src/lib/genetic/fitness.ts, lines 530-549). -/
def allEighteenTypes : List String :=
  ["normal", "fire", "water", "electric", "grass", "ice", "fighting", "poison",
   "ground", "flying", "psychic", "bug", "rock", "ghost", "dragon", "dark",
   "steel", "fairy"]

/-- calculateTypeSynergy (src/lib/genetic/fitness.ts): start at 1, penalize
types several members are weak to, reward teammates resisting each other's
weaknesses, floored at 0. -/
def calculateTypeSynergy (S : Store) (team : List String) : ℚ :=
  let teamPokemon := teamPokemonOf S team
  if teamPokemon.length = 0 then 0
  else
    let pokemonWeaknesses := teamPokemon.map (fun p =>
      allEighteenTypes.filter (fun t =>
        decide (1.6 ≤ Coverage.calculateEffectiveness S.chart t p.types)))
    let weakCountOf := fun t => (pokemonWeaknesses.filter (fun ws => ws.contains t)).length
    let synergy1 := allEighteenTypes.foldl (fun score t =>
      let count := weakCountOf t
      if 4 ≤ count then score - 0.4
      else if count = 3 then score - 0.25
      else if count = 2 then score - 0.1
      else score) (1.0:ℚ)
    let coverageBonus := ((List.range pokemonWeaknesses.length).map (fun i =>
      let weaknesses := pokemonWeaknesses.getD i []
      let coveredCount := (weaknesses.filter (fun weakness =>
        (List.range teamPokemon.length).any (fun j =>
          decide (i ≠ j) && decide (Coverage.calculateEffectiveness S.chart weakness
            (teamPokemon.getD j default).types ≤ 0.625)))).length
      if 0 < weaknesses.length then (coveredCount : ℚ) / (weaknesses.length : ℚ) else 0)).sum
    let totalWeaknessChecks := pokemonWeaknesses.length
    let synergy2 := if 0 < totalWeaknessChecks
      then synergy1 + coverageBonus / (totalWeaknessChecks : ℚ) * 0.3 else synergy1
    max 0 synergy2

/-- calculateFitness (src/lib/genetic/fitness.ts): the weighted sum of the
nine base components, plus the GBL surprise factor or Play! Pokemon
consistency bonus, plus the anchor synergy bonus when anchors exist.  The
result is a JS number because the mode bonuses can be NaN. -/
def calculateFitness (S : Store) (chromosome : Chromosome) (mode : TournamentMode) : JsNum :=
  let team := chromosome.team
  let anchors := chromosome.anchors
  let base := calculateTypeCoverageScore S team * 0.25
    + calculateRankingScore S team * 0.15
    + calculateStrategyScore S team mode * 0.1
    + calculateMetaThreatScore S team * 0.05
    + calculateEnergyScore S team * 0.05
    + calculateTypeDiversity S team * 0.08
    + calculateTypeSynergy S team * 0.2
    + calculateStatBalance S team * 0.12
    + calculateShadowPreference S team * 0.08
  let f1 := JsNum.num base
  let f2 := if mode = TournamentMode.GBL
    then jsAdd f1 (jsMul (calculateSurpriseFactor S team) (JsNum.num 0.15))
    else f1
  let f3 := if mode = TournamentMode.PlayPokemon
    then jsAdd f2 (jsMul (calculateConsistency S team) (JsNum.num 0.1))
    else f2
  if 0 < anchors.length
    then jsAdd f3 (JsNum.num (calculateAnchorSynergy S team anchors * 0.5))
    else f3

/-- C4 / code bug: on the empty team every base scoring component returns 0,
but the surprise-factor and consistency bonuses compute the JS expression
0/0 = NaN, and calculateFitness therefore returns NaN in both modes instead
of 0 - for every knowledge store. -/
theorem calculateFitness_empty_team (S : Store) (mode : TournamentMode) :
    calculateTypeCoverageScore S [] = 0
    ∧ calculateRankingScore S [] = 0
    ∧ calculateStrategyScore S [] mode = 0
    ∧ calculateMetaThreatScore S [] = 0
    ∧ calculateEnergyScore S [] = 0
    ∧ calculateTypeDiversity S [] = 0
    ∧ calculateTypeSynergy S [] = 0
    ∧ calculateStatBalance S [] = 0
    ∧ calculateShadowPreference S [] = 0
    ∧ calculateAnchorSynergy S [] [] = 0
    ∧ calculateSurpriseFactor S [] = JsNum.nan
    ∧ calculateConsistency S [] = JsNum.nan
    ∧ calculateFitness S ⟨[], [], 0⟩ mode = JsNum.nan := by
  cases mode <;>
    exact ⟨rfl, rfl, rfl, rfl, rfl, rfl, rfl, rfl, rfl, rfl, rfl, rfl, rfl⟩
